import Mathlib

/-!
Shallow embedding of the nutrigenomics frontend (Next.js/TypeScript) and of
the backend contracts its spec describes.  Pure functions of the source are
translated as Lean functions; React component handlers become explicit
state-transition functions; backend components that are not part of the
repository snapshot (risk classifier, recommendation synthesizer, radar
scorer, meal-plan orchestrator, questionnaire validator) are modelled from
the specification's words and marked as such in their doc comments.

Text manipulation (JavaScript `split`, `toLowerCase`, `toUpperCase`) is
embedded over `List Char` with executable functions so every theorem can be
evaluated on concrete inputs.
-/

set_option maxRecDepth 8192

/-! ## Character-level text helpers (embedding of JS string methods) -/

/-- ASCII lowering of one character, as JavaScript `toLowerCase` acts on the
ASCII range relevant to file extensions and genotype letters. -/
def lowerChar (c : Char) : Char :=
  if 'A' ≤ c ∧ c ≤ 'Z' then Char.ofNat (c.toNat + 32) else c

/-- ASCII raising of one character, as JavaScript `toUpperCase` acts on the
ASCII range relevant to allele letters. -/
def upperChar (c : Char) : Char :=
  if 'a' ≤ c ∧ c ≤ 'z' then Char.ofNat (c.toNat - 32) else c

/-- Embedding of JavaScript `String.prototype.split` with a one-character
separator: splitting the empty text yields one empty segment, and every
separator occurrence starts a new segment. -/
def splitOnChar (sep : Char) : List Char → List (List Char)
  | [] => [[]]
  | c :: rest =>
    match splitOnChar sep rest with
    | [] => [[]]
    | s :: ss => if c = sep then [] :: s :: ss else (c :: s) :: ss

theorem splitOnChar_ne_nil (sep : Char) (l : List Char) : splitOnChar sep l ≠ [] := by
  cases l with
  | nil => simp [splitOnChar]
  | cons c rest =>
    unfold splitOnChar
    cases h : splitOnChar sep rest with
    | nil => simp
    | cons s ss => by_cases hc : c = sep <;> simp [hc]

/-! ## Questionnaire multi-select toggle (frontend/components/Questionnaire.tsx) -/

/-- Embedding of `handleMultiSelect` in `Questionnaire.tsx`: if the value is
already in the field's array it is filtered out
(`currentValues.filter(v => v !== value)`), otherwise it is appended at the
end (`[...currentValues, value]`). -/
def handleMultiSelect (current : List String) (value : String) : List String :=
  if value ∈ current then current.filter (fun v => v != value)
  else current ++ [value]

/-! ## File upload extension check (frontend/components/FileUpload.tsx) -/

/-- The `validExtensions` array of `handleFile` in `FileUpload.tsx`, as
character lists. -/
def validExtensions : List (List Char) := ["txt".toList, "csv".toList, "zip".toList]

/-- What `handleFile` does with a file: call `onUpload(file)` or raise the
`alert(...)` asking for a supported format. -/
inductive FileAction where
  | upload (name : String)
  | alertInvalid
deriving DecidableEq, Repr

/-- Embedding of `handleFile` in `FileUpload.tsx`:
`file.name.split('.').pop()?.toLowerCase()` is the last element of the
dot-split of the name (`pop` of an empty array gives `undefined`, hence the
`Option` branch), and the file is forwarded to `onUpload` exactly when that
lowercased segment is listed in `validExtensions`. -/
def handleFile (name : String) : FileAction :=
  match (splitOnChar '.' name.toList).getLast? with
  | some ext => if ext.map lowerChar ∈ validExtensions then .upload name else .alertInvalid
  | none => .alertInvalid

/-- The file name's final dot-separated segment (the whole name when there is
no dot). -/
def finalDotSegment (name : String) : List Char :=
  ((splitOnChar '.' name.toList).getLast?).getD []

/-! ## Theorems for the toggle and the upload filter -/

theorem handleMultiSelect_nodup (l : List String) (v : String) (h : l.Nodup) :
    (handleMultiSelect l v).Nodup := by
  unfold handleMultiSelect
  split
  · exact h.filter _
  · rename_i hv
    refine h.append (List.nodup_singleton v) ?_
    intro a ha hav
    rw [List.mem_singleton] at hav
    exact hv (hav ▸ ha)

theorem handleMultiSelect_of_not_mem (l : List String) (v : String) (h : v ∉ l) :
    handleMultiSelect l v = l ++ [v] := by
  unfold handleMultiSelect
  simp [h]

theorem handleMultiSelect_filter_of_mem (l : List String) (v : String) (h : v ∈ l) :
    handleMultiSelect l v = l.filter (fun x => x != v) := by
  unfold handleMultiSelect
  simp [h]

theorem not_mem_handleMultiSelect_of_mem (l : List String) (v : String) (h : v ∈ l) :
    v ∉ handleMultiSelect l v := by
  rw [handleMultiSelect_filter_of_mem l v h]
  simp [List.mem_filter]

theorem handleMultiSelect_twice_of_not_mem (l : List String) (v : String) (h : v ∉ l) :
    handleMultiSelect (handleMultiSelect l v) v = l := by
  rw [handleMultiSelect_of_not_mem l v h]
  unfold handleMultiSelect
  have hv : v ∈ l ++ [v] := by simp
  simp only [hv, if_pos]
  rw [List.filter_append]
  have h1 : l.filter (fun x => x != v) = l := by
    apply List.filter_eq_self.mpr
    intro a ha
    simp only [bne_iff_ne, ne_eq, decide_eq_true_eq]
    intro hav
    exact h (hav ▸ ha)
  have h2 : [v].filter (fun x => x != v) = [] := by simp
  rw [h1, h2, List.append_nil]

theorem handleMultiSelect_twice_mem (l : List String) (v : String) (x : String) :
    x ∈ handleMultiSelect (handleMultiSelect l v) v ↔ x ∈ l := by
  by_cases h : v ∈ l
  · rw [handleMultiSelect_filter_of_mem l v h]
    have hv : v ∉ l.filter (fun x => x != v) := by simp [List.mem_filter]
    rw [handleMultiSelect_of_not_mem _ v hv]
    simp only [List.mem_append, List.mem_filter, List.mem_singleton, bne_iff_ne, ne_eq,
      decide_eq_true_eq]
    constructor
    · rintro (⟨hx, _⟩ | rfl)
      · exact hx
      · exact h
    · intro hx
      by_cases hxv : x = v
      · exact Or.inr hxv
      · exact Or.inl ⟨hx, hxv⟩
  · rw [handleMultiSelect_twice_of_not_mem l v h]

/-- Claim C9 (corrected): the `handleMultiSelect` toggle removes the value
when present and appends it at the end when absent; starting from a
duplicate-free array the result is duplicate-free, applying the toggle twice
restores the original array when the value was absent, and in general
applying it twice restores exactly the original membership (the set of
selected values), though not necessarily the original order. -/
theorem handleMultiSelect_toggle_spec (l : List String) (v : String) (h : l.Nodup) :
    (handleMultiSelect l v).Nodup
      ∧ (v ∉ l → handleMultiSelect l v = l ++ [v])
      ∧ (v ∈ l → v ∉ handleMultiSelect l v)
      ∧ (v ∉ l → handleMultiSelect (handleMultiSelect l v) v = l)
      ∧ (∀ x, x ∈ handleMultiSelect (handleMultiSelect l v) v ↔ x ∈ l) :=
  ⟨handleMultiSelect_nodup l v h,
    handleMultiSelect_of_not_mem l v,
    not_mem_handleMultiSelect_of_mem l v,
    handleMultiSelect_twice_of_not_mem l v,
    handleMultiSelect_twice_mem l v⟩

/-- Witness for C9 at concrete digestive-issue values of the form: the list
["bloating"] is duplicate-free, and the toggle facts hold there. -/
theorem handleMultiSelect_toggle_spec_witness :
    (handleMultiSelect ["bloating"] "gas").Nodup
      ∧ ("gas" ∉ ["bloating"] → handleMultiSelect ["bloating"] "gas" = ["bloating"] ++ ["gas"])
      ∧ ("gas" ∈ ["bloating"] → "gas" ∉ handleMultiSelect ["bloating"] "gas")
      ∧ ("gas" ∉ ["bloating"] →
          handleMultiSelect (handleMultiSelect ["bloating"] "gas") "gas" = ["bloating"])
      ∧ (∀ x, x ∈ handleMultiSelect (handleMultiSelect ["bloating"] "gas") "gas"
          ↔ x ∈ ["bloating"]) :=
  handleMultiSelect_toggle_spec ["bloating"] "gas" (by decide)

/-- Counterexample for C9 as stated: toggling "bloating" twice on the
duplicate-free selection ["bloating", "gas"] does not restore the original
list — the removed value is re-appended at the end, yielding
["gas", "bloating"]. -/
theorem handleMultiSelect_not_involutive :
    handleMultiSelect (handleMultiSelect ["bloating", "gas"] "bloating") "bloating"
      ≠ ["bloating", "gas"] := by decide

/-- Claim C10: the upload component forwards a file to `onUpload` exactly when
the lowercased final dot-separated segment of its name is one of "txt",
"csv", "zip"; every other file (including names with no extension) only
triggers the invalid-format alert and is never uploaded. -/
theorem handleFile_upload_iff (name : String) :
    (handleFile name = FileAction.upload name
        ↔ (finalDotSegment name).map lowerChar ∈ validExtensions)
      ∧ (handleFile name = FileAction.alertInvalid
        ↔ (finalDotSegment name).map lowerChar ∉ validExtensions) := by
  unfold handleFile finalDotSegment
  cases hl : (splitOnChar '.' name.toList).getLast? with
  | none =>
    exact absurd (List.getLast?_eq_none_iff.mp hl) (splitOnChar_ne_nil '.' name.toList)
  | some ext =>
    simp only [Option.getD_some]
    by_cases hmem : ext.map lowerChar ∈ validExtensions
    · simp [hmem]
    · simp [hmem]

/-! ## Meal plan data model (frontend/lib/api.ts MealPlanResponse and section 4.5) -/

/-- Macro triple of a meal, as in the `MealMacros` interface of `api.ts`. -/
structure MealMacros where
  protein_g : Int
  carbs_g : Int
  fats_g : Int
deriving DecidableEq, Repr

/-- A meal as returned by the external generator, before validation. -/
structure RawMeal where
  name : String
  description : String
  macros : MealMacros
deriving DecidableEq, Repr

/-- A day as returned by the external generator: the four meal slots are
optional because a malformed day may omit them. -/
structure RawDay where
  day : Nat
  genetic_note : String
  breakfast : Option RawMeal
  lunch : Option RawMeal
  dinner : Option RawMeal
  snacks : Option (List RawMeal)
deriving DecidableEq, Repr

/-- Non-negative macros, the numeric validity check of section 4.5. -/
def macrosValid (m : MealMacros) : Bool :=
  decide (0 ≤ m.protein_g) && decide (0 ≤ m.carbs_g) && decide (0 ≤ m.fats_g)

/-- Day validation of section 4.5: all four meal slots present and every
macro triple non-negative. -/
def validDay (d : RawDay) : Bool :=
  match d.breakfast, d.lunch, d.dinner, d.snacks with
  | some b, some l, some dn, some sn =>
    macrosValid b.macros && macrosValid l.macros && macrosValid dn.macros
      && sn.all (fun s => macrosValid s.macros)
  | _, _, _, _ => false

/-- Outcome of the external generation function, per section 6: it either
returns structured days or fails (timeout, malformed shape, or any raised
error — the orchestrator treats all failures identically). -/
inductive ExtGenOutcome where
  | ok (days : List RawDay)
  | timeout
  | malformed
  | failed (message : String)

/-- The `meal_plan` object of the TS `MealPlanResponse`: optional `days`,
`generated_by`, `error` and `fallback_advice` fields, here with `days` as the
(possibly empty) validated day list. -/
structure MealPlanOutcome where
  success : Bool
  days : List RawDay
  generated_by : Option String
  error : Option String
  fallback_advice : Option String
deriving DecidableEq, Repr

/-- Modelled from the spec: the static `fallback_advice` string of the
backend Meal Plan Orchestrator (section 4.5), whose Python source is not in
the repository snapshot. -/
def mealPlanFallbackAdvice : String :=
  "Focus on whole foods aligned with your genetic findings and consult a registered dietitian for a personalized plan."

/-- The degraded meal-plan result of section 4.5: no days, a human-readable
error, the static fallback advice. -/
def degradedMealPlan (msg : String) : MealPlanOutcome :=
  { success := false, days := [], generated_by := none,
    error := some msg, fallback_advice := some mealPlanFallbackAdvice }

/-- Modelled from the spec: the backend Meal Plan Orchestrator (section 4.5)
is not in the repository snapshot (only its HTTP client is, in `api.ts`).
On success it keeps the days that pass validation, degrading when none
survive; on timeout, malformed response or external failure it returns the
degraded result.  It is a total function: no branch raises. -/
def orchestrateMealPlan (ext : ExtGenOutcome) : MealPlanOutcome :=
  match ext with
  | .ok rawDays =>
    let valid := rawDays.filter validDay
    if valid.isEmpty then degradedMealPlan "Meal plan generation produced no valid days"
    else { success := true, days := valid, generated_by := some "ai-meal-generator",
           error := none, fallback_advice := none }
  | .timeout => degradedMealPlan "Meal plan generation timed out"
  | .malformed => degradedMealPlan "Meal plan generator returned a malformed response"
  | .failed msg => degradedMealPlan ("Meal plan generation failed: " ++ msg)

/-- Claim C2: on every failing generation (timeout, malformed response,
external-call failure) — and also when no generated day survives validation —
the orchestrator returns a result with no days, a non-empty human-readable
error, and the non-empty static fallback advice; the degraded outcome is an
ordinary return value of the total function `orchestrateMealPlan`, never a
raised failure. -/
theorem orchestrateMealPlan_degraded (msg : String) (rawDays : List RawDay) :
    ((orchestrateMealPlan ExtGenOutcome.timeout).days = []
      ∧ (∃ e, (orchestrateMealPlan ExtGenOutcome.timeout).error = some e ∧ e ≠ "")
      ∧ (orchestrateMealPlan ExtGenOutcome.timeout).fallback_advice
          = some mealPlanFallbackAdvice)
    ∧ ((orchestrateMealPlan ExtGenOutcome.malformed).days = []
      ∧ (∃ e, (orchestrateMealPlan ExtGenOutcome.malformed).error = some e ∧ e ≠ "")
      ∧ (orchestrateMealPlan ExtGenOutcome.malformed).fallback_advice
          = some mealPlanFallbackAdvice)
    ∧ ((orchestrateMealPlan (ExtGenOutcome.failed msg)).days = []
      ∧ (∃ e, (orchestrateMealPlan (ExtGenOutcome.failed msg)).error = some e ∧ e ≠ "")
      ∧ (orchestrateMealPlan (ExtGenOutcome.failed msg)).fallback_advice
          = some mealPlanFallbackAdvice)
    ∧ (rawDays.filter validDay = [] →
        (orchestrateMealPlan (ExtGenOutcome.ok rawDays)).days = []
          ∧ (orchestrateMealPlan (ExtGenOutcome.ok rawDays)).fallback_advice
              = some mealPlanFallbackAdvice)
    ∧ mealPlanFallbackAdvice ≠ "" := by
  refine ⟨⟨rfl, ⟨_, rfl, by decide⟩, rfl⟩, ⟨rfl, ⟨_, rfl, by decide⟩, rfl⟩,
    ⟨rfl, ⟨_, rfl, ?_⟩, rfl⟩, ?_, by decide⟩
  · intro hcontr
    have h0 : ("Meal plan generation failed: " ++ msg).length = 0 := by rw [hcontr]; rfl
    rw [String.length_append] at h0
    have h1 : 0 < "Meal plan generation failed: ".length := by decide
    omega
  · intro hempty
    simp only [orchestrateMealPlan, hempty, List.isEmpty_nil, if_pos]
    exact ⟨rfl, rfl⟩

/-! ## Meal plan generator component (MealPlanGenerator.tsx, stored with api.ts) -/

/-- One invocation of the external meal-plan generation endpoint, as issued
by `nutrigenomicsAPI.generateMealPlan(sessionId, days)`. -/
structure GenerateCall where
  session_id : String
  days : Nat
deriving DecidableEq, Repr

/-- State of the `MealPlanGenerator` component: `useState` hooks `mealPlan`,
`loading`, `error`, `days`. -/
structure MealPlanGeneratorState where
  mealPlan : Option MealPlanOutcome
  loading : Bool
  error : String
  days : Nat
deriving DecidableEq, Repr

/-- The component's initial state: `useState(null)`, `useState(false)`,
`useState('')`, `useState(3)`. -/
def initialGeneratorState : MealPlanGeneratorState :=
  { mealPlan := none, loading := false, error := "", days := 3 }

/-- Embedding of `handleGenerate` in `MealPlanGenerator.tsx`.  The handler
awaits exactly one `generateMealPlan` call (returned as the invocation list);
on success it stores the response, on failure it only records the error
message — there is no retry branch, so the stored `mealPlan` is unchanged and
a fresh user click is the only path that generates again. -/
def handleGenerate (sessionId : String) (st : MealPlanGeneratorState)
    (response : Except String MealPlanOutcome) :
    MealPlanGeneratorState × List GenerateCall :=
  match response with
  | .ok r =>
    ({ st with loading := false, error := "", mealPlan := some r },
      [{ session_id := sessionId, days := st.days }])
  | .error msg =>
    ({ st with loading := false, error := msg },
      [{ session_id := sessionId, days := st.days }])

/-- Claim C7: each meal-plan request invokes the external generation endpoint
at most once (exactly one call per `handleGenerate` run, whatever the
outcome), and a failed run leaves the stored meal plan unchanged, so only a
fresh user-initiated request can invoke generation again. -/
theorem handleGenerate_no_retry (sessionId : String) (st : MealPlanGeneratorState)
    (response : Except String MealPlanOutcome) (msg : String) :
    (handleGenerate sessionId st response).2.length ≤ 1
      ∧ (handleGenerate sessionId st (Except.error msg)).1.mealPlan = st.mealPlan
      ∧ (handleGenerate sessionId st (Except.error msg)).2
          = [{ session_id := sessionId, days := st.days }] := by
  refine ⟨?_, rfl, rfl⟩
  cases response <;> simp [handleGenerate]

/-! ## Meal plan duration (MealPlanGenerator.tsx select options, api.ts default) -/

/-- The duration options offered by the `MealPlanGenerator` select:
1, 3, 5 or 7 days. -/
def mealPlanDayOptions : List Nat := [1, 3, 5, 7]

/-- The component's initial duration: `useState(3)`. -/
def initialMealPlanDays : Nat := 3

/-- The `days` value `generateMealPlan` sends: the caller's argument, or the
default parameter `days: number = 3` when none is supplied. -/
def generateMealPlanRequestDays (days : Option Nat) : Nat := days.getD 3

/-- Day counts the `days` state of `MealPlanGenerator` can hold: its initial
value, or a value chosen from the select options. -/
inductive ReachableDays : Nat → Prop where
  | init : ReachableDays initialMealPlanDays
  | select (d : Nat) : d ∈ mealPlanDayOptions → ReachableDays d

/-- Claim C4: every meal-plan request carries a day count in [1, 7] — the
client's `days` state only ever holds 1, 3, 5 or 7, and `generateMealPlan`
defaults the day count to 3 when the caller supplies none. -/
theorem mealPlanDays_in_range (d : Nat) (h : ReachableDays d) :
    (1 ≤ d ∧ d ≤ 7)
      ∧ generateMealPlanRequestDays none = 3
      ∧ (1 ≤ generateMealPlanRequestDays (some d)
          ∧ generateMealPlanRequestDays (some d) ≤ 7) := by
  have hd : 1 ≤ d ∧ d ≤ 7 := by
    cases h with
    | init => exact ⟨by decide, by decide⟩
    | select d hmem =>
      simp only [mealPlanDayOptions, List.mem_cons, List.not_mem_nil, or_false] at hmem
      rcases hmem with rfl | rfl | rfl | rfl <;> omega
  exact ⟨hd, rfl, by simpa [generateMealPlanRequestDays] using hd⟩

/-- Witness for C4 at the initial duration 3. -/
theorem mealPlanDays_in_range_witness :
    (1 ≤ 3 ∧ 3 ≤ 7)
      ∧ generateMealPlanRequestDays none = 3
      ∧ (1 ≤ generateMealPlanRequestDays (some 3)
          ∧ generateMealPlanRequestDays (some 3) ≤ 7) :=
  mealPlanDays_in_range 3 ReachableDays.init

/-! ## Page workflow state (app/page.tsx, stored as an unnamed source file) -/

/-- The `Step` union type of `page.tsx`. -/
inductive WorkflowStep where
  | upload
  | analyzing
  | questionnaire
  | recommendations
deriving DecidableEq, Repr

/-- The `Home` component's `useState` hooks: `step`, `sessionId`, `fileName`,
`error`, `loading`. -/
structure PageState where
  step : WorkflowStep
  sessionId : String
  fileName : String
  error : String
  loading : Bool
deriving DecidableEq, Repr

/-- Embedding of `handleQuestionnaireSubmit` in `page.tsx`: it awaits the
submission; on success it advances the step to `recommendations`; on error it
only records the error message (the `catch` block touches no other state);
`finally` clears `loading`. -/
def handleQuestionnaireSubmit (s : PageState) (result : Except String Unit) : PageState :=
  match result with
  | .ok _ => { s with loading := false, error := "", step := WorkflowStep.recommendations }
  | .error msg => { s with loading := false, error := msg }

/-- Claim C6: a failed questionnaire submission leaves the prior session
state untouched — the session identifier, the workflow step (and the stored
file name) after the error are exactly what they were before the
submission. -/
theorem handleQuestionnaireSubmit_atomic (s : PageState) (msg : String) :
    (handleQuestionnaireSubmit s (Except.error msg)).sessionId = s.sessionId
      ∧ (handleQuestionnaireSubmit s (Except.error msg)).step = s.step
      ∧ (handleQuestionnaireSubmit s (Except.error msg)).fileName = s.fileName := by
  exact ⟨rfl, rfl, rfl⟩

/-! ## Questionnaire answers (api.ts QuestionnaireAnswers, Questionnaire.tsx) -/

/-- The `sex` union type of the TS `QuestionnaireAnswers`. -/
inductive Sex where
  | male
  | female
  | other
deriving DecidableEq, Repr

/-- The `activity_level` union type. -/
inductive ActivityLevel where
  | sedentary
  | light
  | moderate
  | active
  | very_active
deriving DecidableEq, Repr

/-- The `diet_type` union type. -/
inductive DietType where
  | omnivore
  | vegetarian
  | vegan
  | pescatarian
  | keto
  | paleo
  | other
deriving DecidableEq, Repr

/-- The `alcohol_frequency` union type. -/
inductive AlcoholFrequency where
  | never
  | rare
  | occasional
  | moderate
  | frequent
deriving DecidableEq, Repr

/-- The TS `QuestionnaireAnswers` interface: numbers are embedded as `Int`
(the form parses them with `parseInt`), the enumerated fields as the
inductives above, and the four multi-select fields as string lists. -/
structure QuestionnaireAnswers where
  age : Int
  sex : Sex
  activity_level : ActivityLevel
  diet_type : DietType
  alcohol_frequency : AlcoholFrequency
  caffeine_cups_per_day : Int
  digestive_issues : List String
  health_goals : List String
  current_supplements : List String
  known_allergies : List String
deriving DecidableEq, Repr

/-- The `min` attribute of the age input in `Questionnaire.tsx`. -/
def ageInputMin : Int := 18

/-- The `max` attribute of the age input in `Questionnaire.tsx`. -/
def ageInputMax : Int := 100

/-- The `min` attribute of the caffeine input in `Questionnaire.tsx`. -/
def caffeineInputMin : Int := 0

/-- The `max` attribute of the caffeine input in `Questionnaire.tsx`. -/
def caffeineInputMax : Int := 10

/-- Modelled from the spec: the backend questionnaire validator is not in
the repository snapshot (the frontend only posts to `/api/questionnaire`).
Per sections 3 and 7, a field outside its declared range raises a
`ValidationError` fatal to that submission only; the enumerated fields are
range-checked by type here, so the numeric ranges — the form's declared
`min`/`max` — remain to validate. -/
def validateQuestionnaire (a : QuestionnaireAnswers) : Except String Unit :=
  if a.age < ageInputMin then Except.error "ValidationError: age below declared minimum"
  else if ageInputMax < a.age then Except.error "ValidationError: age above declared maximum"
  else if a.caffeine_cups_per_day < caffeineInputMin then
    Except.error "ValidationError: caffeine cups below declared minimum"
  else if caffeineInputMax < a.caffeine_cups_per_day then
    Except.error "ValidationError: caffeine cups above declared maximum"
  else Except.ok ()

/-- Claim C5: a questionnaire submission is accepted exactly when its age
lies in [18, 100] and its caffeine cups per day in [0, 10]; any field outside
its declared range yields a `ValidationError` value instead of acceptance. -/
theorem validateQuestionnaire_ok_iff (a : QuestionnaireAnswers) :
    (validateQuestionnaire a = Except.ok ()
        ↔ (ageInputMin ≤ a.age ∧ a.age ≤ ageInputMax
            ∧ caffeineInputMin ≤ a.caffeine_cups_per_day
            ∧ a.caffeine_cups_per_day ≤ caffeineInputMax))
      ∧ (validateQuestionnaire a = Except.ok ()
          ∨ ∃ m, validateQuestionnaire a = Except.error m) := by
  constructor
  · unfold validateQuestionnaire
    unfold ageInputMin ageInputMax caffeineInputMin caffeineInputMax
    split_ifs with h1 h2 h3 h4 <;> simp_all <;> omega
  · cases h : validateQuestionnaire a with
    | ok u => cases u; exact Or.inl rfl
    | error m => exact Or.inr ⟨m, rfl⟩

/-- Witness for C5: the form's default answers (age 30, one caffeine cup)
are accepted by the validator. -/
theorem validateQuestionnaire_ok_iff_witness :
    validateQuestionnaire
      { age := 30, sex := Sex.male, activity_level := ActivityLevel.moderate,
        diet_type := DietType.omnivore, alcohol_frequency := AlcoholFrequency.occasional,
        caffeine_cups_per_day := 1, digestive_issues := [], health_goals := [],
        current_supplements := [], known_allergies := [] } = Except.ok () :=
  (validateQuestionnaire_ok_iff _).1.mpr (by decide)

/-! ## Variant catalog and risk classifier (api.ts GeneticFinding, spec 4.2) -/

/-- The genotype-to-effect value of one catalog rule: risk tier,
interpretation, recommendation and the category tag used by the radar
scorer (spec section 3, Variant). -/
structure GenotypeEffect where
  risk_level : String
  interpretation : String
  recommendation : String
  category : String
deriving DecidableEq, Repr

/-- A catalog variant: identifier, gene, condition, the ordered mapping from
normalized genotype (as a character list) to effect, and the optional risk
allele set when the catalog marks the variant single-risk-allele-dominant
(spec sections 3 and 4.2). -/
structure Variant where
  rsid : String
  gene : String
  condition : String
  genotypeRules : List (List Char × GenotypeEffect)
  riskAllele : Option Char
deriving DecidableEq, Repr

/-- The four risk tiers of the TS `GeneticFinding.risk_level` union type. -/
def riskTiers : List String := ["high", "moderate", "low", "protective"]

/-- Insertion into a sorted character list. -/
def insertChar (c : Char) : List Char → List Char
  | [] => [c]
  | d :: ds => if c ≤ d then c :: d :: ds else d :: insertChar c ds

/-- Insertion sort of a character list (allele-order canonicalization). -/
def sortChars : List Char → List Char
  | [] => []
  | c :: cs => insertChar c (sortChars cs)

/-- Genotype normalization of spec section 4.1: uppercase, then canonicalize
allele order by sorting. -/
def normalizeGenotype (g : List Char) : List Char :=
  sortChars (g.map upperChar)

/-- The TS `GeneticFinding` interface, with the genotype as a character
list. -/
structure Finding where
  rsid : String
  gene : String
  condition : String
  genotype : List Char
  risk_level : String
  interpretation : String
  recommendation : String
  source : String
deriving DecidableEq, Repr

/-- A finding built from a matched catalog rule. -/
def mkFinding (v : Variant) (g : List Char) (e : GenotypeEffect) : Finding :=
  { rsid := v.rsid, gene := v.gene, condition := v.condition, genotype := g,
    risk_level := e.risk_level, interpretation := e.interpretation,
    recommendation := e.recommendation, source := "reference-catalog" }

/-- The final fallback finding of spec section 4.2: risk tier "low" with
interpretation "pattern not in reference table". -/
def fallbackFinding (v : Variant) (g : List Char) : Finding :=
  { rsid := v.rsid, gene := v.gene, condition := v.condition, genotype := g,
    risk_level := "low", interpretation := "pattern not in reference table",
    recommendation := "No specific recommendation for this genotype",
    source := "reference-catalog" }

/-- Modelled from the spec: the backend Risk Classifier (section 4.2) is not
in the repository snapshot (only its output type `GeneticFinding` is, in
`api.ts`).  Lookup of the normalized genotype: exact match wins; otherwise,
when the variant is single-risk-allele-dominant and the genotype contains
the risk allele, the first enumerated rule containing that allele (the
heterozygous tier) applies; otherwise the "low" fallback.  A total
function: every branch returns a fully populated finding. -/
def classifyGenotype (v : Variant) (g : List Char) : Finding :=
  match v.genotypeRules.find? (fun r => r.1 == normalizeGenotype g) with
  | some r => mkFinding v (normalizeGenotype g) r.2
  | none =>
    match v.riskAllele with
    | some a =>
      if a ∈ normalizeGenotype g then
        match v.genotypeRules.find? (fun r => r.1.contains a) with
        | some r => mkFinding v (normalizeGenotype g) r.2
        | none => fallbackFinding v (normalizeGenotype g)
      else fallbackFinding v (normalizeGenotype g)
    | none => fallbackFinding v (normalizeGenotype g)

/-- Claim C1: for every monitored variant whose catalog rules carry one of
the four tiers, and every genotype string over the allele alphabet
{A, C, G, T, -}, classification is total — `classifyGenotype` is a total
function with no failing branch — and the produced finding's risk level is
exactly one of "high", "moderate", "low", "protective". -/
theorem classifyGenotype_total (v : Variant) (g : List Char)
    (hrules : ∀ r ∈ v.genotypeRules, r.2.risk_level ∈ riskTiers)
    (halpha : ∀ c ∈ g, c ∈ ['A', 'C', 'G', 'T', '-']) :
    (classifyGenotype v g).risk_level ∈ riskTiers := by
  unfold classifyGenotype
  cases hf : v.genotypeRules.find? (fun r => r.1 == normalizeGenotype g) with
  | some r =>
    simpa [mkFinding] using hrules r (List.mem_of_find?_eq_some hf)
  | none =>
    cases ha : v.riskAllele with
    | none => simp [fallbackFinding, riskTiers]
    | some a =>
      by_cases hm : a ∈ normalizeGenotype g
      · simp only [hm, if_true]
        cases hf2 : v.genotypeRules.find? (fun r => r.1.contains a) with
        | some r =>
          simpa [mkFinding] using hrules r (List.mem_of_find?_eq_some hf2)
        | none => simp [fallbackFinding, riskTiers]
      · simp [hm, fallbackFinding, riskTiers]

/-- Witness for C1 at the lactose-intolerance scenario of spec section 8:
the variant rs4988235 with a moderate rule for the normalized genotype "AG",
classified on the raw genotype "GA". -/
theorem classifyGenotype_total_witness :
    (classifyGenotype
      { rsid := "rs4988235", gene := "LCT", condition := "Lactose intolerance",
        genotypeRules := [(['A', 'G'],
          { risk_level := "moderate",
            interpretation := "One lactase-persistence allele",
            recommendation := "Moderate dairy intake",
            category := "Lactose" })],
        riskAllele := some 'A' }
      ['G', 'A']).risk_level ∈ riskTiers :=
  classifyGenotype_total _ _ (by decide) (by decide)

/-! ## Nutrient radar scorer (spec 4.4) and radar chart (NutrientRadarChart.tsx) -/

/-- First-seen-order deduplication by exact match, with an accumulator of
already-seen values (structural recursion keeps it executable). -/
def dedupKeepFirstAux (seen : List String) : List String → List String
  | [] => []
  | x :: xs =>
    if x ∈ seen then dedupKeepFirstAux seen xs
    else x :: dedupKeepFirstAux (x :: seen) xs

/-- First-seen-order deduplication by exact match. -/
def dedupKeepFirst (l : List String) : List String :=
  dedupKeepFirstAux [] l

theorem mem_of_mem_dedupKeepFirstAux :
    ∀ (l seen : List String) (a : String), a ∈ dedupKeepFirstAux seen l → a ∈ l := by
  intro l
  induction l with
  | nil => intro seen a h; simp [dedupKeepFirstAux] at h
  | cons x xs ih =>
    intro seen a h
    unfold dedupKeepFirstAux at h
    by_cases hx : x ∈ seen
    · simp only [hx, if_true] at h
      exact List.mem_cons_of_mem x (ih _ _ h)
    · simp only [hx, if_false, List.mem_cons] at h
      rcases h with rfl | h
      · exact List.mem_cons_self a xs
      · exact List.mem_cons_of_mem x (ih _ _ h)

theorem mem_of_mem_dedupKeepFirst (l : List String) (a : String)
    (h : a ∈ dedupKeepFirst l) : a ∈ l :=
  mem_of_mem_dedupKeepFirstAux l [] a h

/-- A finding as the radar scorer consumes it: its category tag and its
risk tier (spec section 4.4). -/
structure ScoredFinding where
  category : String
  risk_level : String
deriving DecidableEq, Repr

/-- The severity weights of spec section 4.4: high 3, moderate 2, low 1,
protective 0 (and 0 for anything else). -/
def severityWeight (risk : String) : Nat :=
  if risk == "high" then 3
  else if risk == "moderate" then 2
  else if risk == "low" then 1
  else 0

/-- Round-half-up of 100 * s / (3 * n): computed over naturals as
(200 * s + 3 * n) / (6 * n). -/
def roundScore (s n : Nat) : Nat :=
  (200 * s + 3 * n) / (6 * n)

/-- The TS `NutrientRadarData` interface. -/
structure NutrientRadarData where
  category : String
  score : Nat
  findings_count : Nat
deriving DecidableEq, Repr

/-- Modelled from the spec: the backend Nutrient Radar Scorer (section 4.4)
is not in the repository snapshot (only its output type `NutrientRadarData`
is, in `api.ts`).  Each category appearing among the findings gets
score = round(100 * sum_severity / (count * 3)); a category with zero
findings is never emitted because only categories of actual findings are
enumerated. -/
def nutrientRadar (findings : List ScoredFinding) : List NutrientRadarData :=
  (dedupKeepFirst (findings.map (fun f => f.category))).map (fun c =>
    { category := c,
      score := roundScore
        (((findings.filter (fun f => f.category == c)).map
          (fun f => severityWeight f.risk_level)).sum)
        (findings.filter (fun f => f.category == c)).length,
      findings_count := (findings.filter (fun f => f.category == c)).length })

/-- The rendered radar chart: its data, description, and the fixed
`PolarRadiusAxis` domain [0, 100] of `NutrientRadarChart.tsx`. -/
structure RadarChartView where
  data : List NutrientRadarData
  description : String
  axisDomain : Nat × Nat
deriving DecidableEq, Repr

/-- Embedding of the `NutrientRadarChart` component: with empty data it
renders nothing (`if (!data || data.length === 0) return null`), otherwise
the chart with the [0, 100] radius axis. -/
def renderNutrientRadarChart (data : List NutrientRadarData) (description : String) :
    Option RadarChartView :=
  if data.isEmpty then none
  else some { data := data, description := description, axisDomain := (0, 100) }

theorem severityWeight_le_three (risk : String) : severityWeight risk ≤ 3 := by
  unfold severityWeight
  split_ifs <;> omega

theorem roundScore_le_100 (s n : Nat) (hn : 0 < n) (hs : s ≤ 3 * n) :
    roundScore s n ≤ 100 := by
  unfold roundScore
  have h2 : 200 * s ≤ 200 * (3 * n) := Nat.mul_le_mul_left 200 hs
  have h3 : 200 * s + 3 * n < 6 * n * 101 := by omega
  have h4 : (200 * s + 3 * n) / (6 * n) < 101 := Nat.div_lt_of_lt_mul h3
  omega

/-- Claim C3: every emitted radar entry has a score in [0, 100] (scores are
naturals, so the lower bound is by type), a positive findings count, and a
category that actually occurs among the findings — so a category with zero
findings is never present — and rendering an empty radar data set produces
no chart at all. -/
theorem nutrientRadar_bounded (findings : List ScoredFinding) (e : NutrientRadarData)
    (he : e ∈ nutrientRadar findings) :
    e.score ≤ 100 ∧ 0 < e.findings_count
      ∧ e.category ∈ findings.map (fun f => f.category)
      ∧ (∀ d, renderNutrientRadarChart [] d = none) := by
  rcases List.mem_map.mp he with ⟨c, hc, rfl⟩
  have hcm : c ∈ findings.map (fun f => f.category) :=
    mem_of_mem_dedupKeepFirst _ _ hc
  rcases List.mem_map.mp hcm with ⟨f, hf, hfc⟩
  have hfmem : f ∈ findings.filter (fun f => f.category == c) :=
    List.mem_filter.mpr ⟨hf, by simp [hfc]⟩
  have hn : 0 < (findings.filter (fun f => f.category == c)).length :=
    List.length_pos.mpr (List.ne_nil_of_mem hfmem)
  have hws : ∀ x ∈ (findings.filter (fun f => f.category == c)).map
      (fun f => severityWeight f.risk_level), x ≤ 3 := by
    intro x hx
    rcases List.mem_map.mp hx with ⟨f2, _, rfl⟩
    exact severityWeight_le_three f2.risk_level
  have hb := List.sum_le_card_nsmul
    ((findings.filter (fun f => f.category == c)).map (fun f => severityWeight f.risk_level))
    3 hws
  have hsum : (((findings.filter (fun f => f.category == c)).map
      (fun f => severityWeight f.risk_level)).sum)
      ≤ 3 * (findings.filter (fun f => f.category == c)).length := by
    simpa [List.length_map, smul_eq_mul, Nat.mul_comm] using hb
  exact ⟨roundScore_le_100 _ _ hn hsum, hn, hcm, fun d => rfl⟩

/-- Witness for C3 at a single high-risk vitamin-D finding: the unique radar
entry has score 100, findings count 1, the category occurs, and the empty
chart is not rendered. -/
theorem nutrientRadar_bounded_witness :
    ({ category := "Vitamin D", score := 100, findings_count := 1 } : NutrientRadarData).score
        ≤ 100
      ∧ 0 < ({ category := "Vitamin D", score := 100, findings_count := 1 }
          : NutrientRadarData).findings_count
      ∧ ({ category := "Vitamin D", score := 100, findings_count := 1 }
          : NutrientRadarData).category
        ∈ ([{ category := "Vitamin D", risk_level := "high" }] : List ScoredFinding).map
            (fun f => f.category)
      ∧ (∀ d, renderNutrientRadarChart [] d = none) :=
  nutrientRadar_bounded [{ category := "Vitamin D", risk_level := "high" }]
    { category := "Vitamin D", score := 100, findings_count := 1 } (by decide)

/-! ## Recommendation synthesizer (spec 4.3, api.ts RecommendationsResponse) -/

/-- The case-insensitive comparison key of a string: its characters,
ASCII-lowered. -/
def lowerKey (s : String) : List Char :=
  s.toList.map lowerChar

/-- First-seen-order deduplication by case-insensitive exact match, with an
accumulator of the lowered keys already seen. -/
def dedupCIAux (seen : List (List Char)) : List String → List String
  | [] => []
  | x :: xs =>
    if lowerKey x ∈ seen then dedupCIAux seen xs
    else x :: dedupCIAux (lowerKey x :: seen) xs

/-- First-seen-order deduplication by case-insensitive exact match (spec
section 4.3, step 3). -/
def dedupCaseInsensitive (l : List String) : List String :=
  dedupCIAux [] l

theorem lowerKey_not_mem_seen_of_mem_dedupCIAux :
    ∀ (l : List String) (seen : List (List Char)) (a : String),
      a ∈ dedupCIAux seen l → lowerKey a ∉ seen := by
  intro l
  induction l with
  | nil => intro seen a h; simp [dedupCIAux] at h
  | cons x xs ih =>
    intro seen a h
    unfold dedupCIAux at h
    by_cases hx : lowerKey x ∈ seen
    · simp only [hx, if_true] at h
      exact ih _ _ h
    · simp only [hx, if_false, List.mem_cons] at h
      rcases h with rfl | h
      · exact hx
      · have := ih _ _ h
        intro hmem
        exact this (List.mem_cons_of_mem _ hmem)

theorem dedupCIAux_lower_nodup :
    ∀ (l : List String) (seen : List (List Char)),
      ((dedupCIAux seen l).map lowerKey).Nodup := by
  intro l
  induction l with
  | nil => intro seen; simp [dedupCIAux]
  | cons x xs ih =>
    intro seen
    unfold dedupCIAux
    by_cases hx : lowerKey x ∈ seen
    · simp only [hx, if_true]
      exact ih seen
    · simp only [hx, if_false, List.map_cons, List.nodup_cons]
      refine ⟨?_, ih (lowerKey x :: seen)⟩
      intro hmem
      rcases List.mem_map.mp hmem with ⟨a, ha, hko⟩
      have := lowerKey_not_mem_seen_of_mem_dedupCIAux xs (lowerKey x :: seen) a ha
      exact this (hko ▸ List.mem_cons_self (lowerKey x) seen)

theorem dedupCaseInsensitive_lower_nodup (l : List String) :
    ((dedupCaseInsensitive l).map lowerKey).Nodup :=
  dedupCIAux_lower_nodup l []

/-- A finding as the recommendation synthesizer consumes it: risk tier,
category, the variant's static recommendation text and static food and
supplement tags (spec sections 3 and 4.3). -/
structure SynthFinding where
  rsid : String
  gene : String
  risk_level : String
  category : String
  recommendation : String
  foods_to_increase : List String
  foods_to_limit : List String
  supplements : List String
deriving DecidableEq, Repr

/-- The TS `Recommendation` interface. -/
structure RecommendationItem where
  category : String
  genetic_basis : String
  recommendation : String
  personalized_note : Option String
deriving DecidableEq, Repr

/-- The TS `GeneralAdvice` interface. -/
structure GeneralAdviceItem where
  category : String
  advice : String
deriving DecidableEq, Repr

/-- The `recommendations` object of the TS `RecommendationsResponse`, plus
its sibling fixed `disclaimer` string. -/
structure RecommendationsResult where
  high_priority : List RecommendationItem
  moderate_priority : List RecommendationItem
  general_advice : List GeneralAdviceItem
  foods_to_increase : List String
  foods_to_limit : List String
  supplements_to_consider : List String
  disclaimer : String
deriving DecidableEq, Repr

/-- Modelled from the spec: the fixed disclaimer string every
recommendations result carries (section 6). -/
def recommendationsDisclaimer : String :=
  "This report is for educational purposes only and is not medical advice. Consult a qualified healthcare professional before making dietary changes."

/-- Concatenation of the per-finding static tag lists (the union the
deduplication then collapses). -/
def concatAll : List (List String) → List String
  | [] => []
  | l :: ls => l ++ concatAll ls

/-- One recommendation candidate (spec section 4.3, step 2): static
recommendation text, with a personalized note appended only when the
questionnaire answers carry a cross-reference trigger — the note never
changes the risk tier. -/
def mkRecommendationItem (a : QuestionnaireAnswers) (f : SynthFinding) : RecommendationItem :=
  { category := f.category,
    genetic_basis := f.rsid ++ " (" ++ f.gene ++ ")",
    recommendation := f.recommendation,
    personalized_note :=
      if a.digestive_issues.contains f.category then
        some "You reported digestive issues matching this genetic category."
      else if a.current_supplements.any (fun s => f.supplements.contains s) then
        some "You already take a supplement addressing this finding."
      else none }

/-- General advice (spec section 4.3, steps 1 and 5): low/protective
findings feed general advice, deduplicated by category label with the first
finding of each category populating it. -/
def generalAdviceFor (findings : List SynthFinding) : List GeneralAdviceItem :=
  (dedupKeepFirst
    ((findings.filter (fun f => f.risk_level == "low" || f.risk_level == "protective")).map
      (fun f => f.category))).map (fun c =>
    { category := c,
      advice :=
        match (findings.filter
            (fun f => f.risk_level == "low" || f.risk_level == "protective")).find?
            (fun f => f.category == c) with
        | some f => f.recommendation
        | none => "" })

/-- Modelled from the spec: the backend Recommendation Synthesizer (section
4.3) is not in the repository snapshot (only its output type
`RecommendationsResponse` is, in `api.ts`).  High and moderate findings
become the priority buckets in finding order; the three string lists are the
case-insensitive first-seen deduplication of the unions of the findings'
static tags; the disclaimer is the fixed string. -/
def synthesizeRecommendations (findings : List SynthFinding) (a : QuestionnaireAnswers) :
    RecommendationsResult :=
  { high_priority :=
      (findings.filter (fun f => f.risk_level == "high")).map (mkRecommendationItem a),
    moderate_priority :=
      (findings.filter (fun f => f.risk_level == "moderate")).map (mkRecommendationItem a),
    general_advice := generalAdviceFor findings,
    foods_to_increase :=
      dedupCaseInsensitive (concatAll (findings.map (fun f => f.foods_to_increase))),
    foods_to_limit :=
      dedupCaseInsensitive (concatAll (findings.map (fun f => f.foods_to_limit))),
    supplements_to_consider :=
      dedupCaseInsensitive (concatAll (findings.map (fun f => f.supplements))),
    disclaimer := recommendationsDisclaimer }

/-- Claim C8: every recommendations result carries the high- and
moderate-priority buckets (one entry per high, resp. moderate, finding), a
general-advice array, the three food/supplement string lists deduplicated by
case-insensitive match (no two entries share a lowered key), and the fixed
non-empty disclaimer string, identical for all inputs. -/
theorem synthesizeRecommendations_shape (findings : List SynthFinding)
    (a : QuestionnaireAnswers) :
    ((synthesizeRecommendations findings a).foods_to_increase.map lowerKey).Nodup
      ∧ ((synthesizeRecommendations findings a).foods_to_limit.map lowerKey).Nodup
      ∧ ((synthesizeRecommendations findings a).supplements_to_consider.map lowerKey).Nodup
      ∧ (synthesizeRecommendations findings a).disclaimer = recommendationsDisclaimer
      ∧ recommendationsDisclaimer ≠ ""
      ∧ (synthesizeRecommendations findings a).high_priority.length
          = (findings.filter (fun f => f.risk_level == "high")).length
      ∧ (synthesizeRecommendations findings a).moderate_priority.length
          = (findings.filter (fun f => f.risk_level == "moderate")).length := by
  refine ⟨dedupCaseInsensitive_lower_nodup _, dedupCaseInsensitive_lower_nodup _,
    dedupCaseInsensitive_lower_nodup _, rfl, ?_, ?_, ?_⟩
  · intro hcontr
    have h0 : recommendationsDisclaimer.length = 0 := by rw [hcontr]; rfl
    have h1 : 0 < recommendationsDisclaimer.length := by decide
    omega
  · simp [synthesizeRecommendations, List.length_map]
  · simp [synthesizeRecommendations, List.length_map]
